import Mathlib

/-!
# Verification of the sotisimmo selection-state and derived-dataset pipeline

Shallow embedding of the core pipeline of `src/modules/GUI/home.py`
(class `App`, methods `__init__` and `initial_request`), together with
theorems settling the frozen claims about it.

Numeric dataframe columns (`valeur_fonciere`, `surface_reelle_bati`) are
modelled as rationals.  Pandas elementwise division by zero produces a
non-finite value (`inf`/`NaN`), and `.astype(int)` raises
`ValueError: Cannot convert non-finite values (NA or inf) to integer`;
this is modelled by `Option` (`none` = non-finite entry appeared) and an
explicit `PandasError`.  Pandas `.round()` rounds half to even, modelled
by `roundHalfEven`.
-/

/-! ## Department catalogue (home.py lines 98-105) -/

/-- Python `str(i).zfill(2)` for the department numbers used here. -/
def zfill2 (i : Nat) : String :=
  if i < 10 then "0" ++ toString i else toString i

/-- The fixed department list: `[str(i).zfill(2) for i in range(1, 96)]`,
then `remove("20")`, then `extend(["971","972","973","974","2A","2B"])`
(home.py lines 99-101). -/
def departments : List String :=
  (((List.range' 1 95).map zfill2).erase "20") ++ ["971", "972", "973", "974", "2A", "2B"]

/-! ## Year catalogue and labels (home.py lines 121-132) -/

/-- Modelled from the spec: the year catalogue `available_years_datagouv`
is produced by `data_URL()` in `modules/config`, which is not present
under `src/`.  Per the spec it is the ordered list of closed reporting
years (the newest closed year being 2023, matching the default label
`"Vendus en 2023"` at home.py line 124) plus the live sentinel year 2024. -/
def available_years_datagouv : List String :=
  ["2018", "2019", "2020", "2021", "2022", "2023", "2024"]

/-- `years = [f"Vendus en {year}" for year in years_range]` (home.py line 123). -/
def yearLabels : List String :=
  available_years_datagouv.map (fun y => "Vendus en " ++ y)

/-- Python `str.split(" ")`: split on every single space, keeping empty
pieces (so the result is never the empty list). -/
def splitOnSpace : List Char → List (List Char)
  | [] => [[]]
  | c :: cs =>
    let rest := splitOnSpace cs
    if c = ' ' then [] :: rest
    else
      match rest with
      | [] => [[c]]
      | w :: ws => (c :: w) :: ws

/-- `selected_year = <label>.split(" ")[-1]` (home.py lines 130-132). -/
def parseYearLabel (label : String) : String :=
  String.mk ((splitOnSpace label.data).getLastD [])

/-! ## Dataset Resolver (home.py lines 134-142) -/

/-- Does `hay` start with `needle` (character-wise)? -/
def charsStartWith : List Char → List Char → Bool
  | [], _ => true
  | _ :: _, [] => false
  | a :: as, b :: bs => a = b && charsStartWith as bs

/-- Contiguous-substring search over character lists. -/
def charsContain (needle : List Char) : List Char → Bool
  | [] => charsStartWith needle []
  | b :: bs => charsStartWith needle (b :: bs) || charsContain needle bs

/-- Python substring containment `needle in hay`. -/
def strContains (needle hay : String) : Bool :=
  charsContain needle.data hay.data

/-- One call to an external fetcher, with the arguments it receives. -/
inductive FetchCall where
  | gouv (department year : String)
  | bigQuery (credentials department : String)
deriving DecidableEq

/-- The fetch calls issued by `initial_request` (home.py lines 134-142):
`if "2024" not in self.selected_year: fetch_data_gouv(dept, year)
else: fetch_data_BigQuery(bigquery_cred, dept)`. -/
def fetchCalls (credentials department yearLabel : String) : List FetchCall :=
  let selected_year := parseYearLabel yearLabel
  if !(strContains "2024" selected_year) then
    [FetchCall.gouv department selected_year]
  else
    [FetchCall.bigQuery credentials department]

/-! ## Selection State Store and Dependent-Selection Invalidator
    (home.py lines 107-119) -/

/-- The session-state keys this code block touches.  `none` models an
absent key (`key not in st.session_state`). -/
structure SessionState where
  previous_selected_department : Option String
  selected_postcode : Option String
  selected_postcode_title : Option String
deriving DecidableEq

/-- home.py lines 107-119: if `previous_selected_department` is present
and differs from the new selection, delete `selected_postcode_title` and
`selected_postcode` (each deletion guarded by a presence check, so
deleting an absent key never happens and never errors); then in all
cases overwrite `previous_selected_department` with the new value. -/
def departmentChangeReset (state : SessionState) (selected_department : String) : SessionState :=
  let changed : Bool :=
    match state.previous_selected_department with
    | some prev => prev != selected_department
    | none => false
  let state1 :=
    if changed then
      let s1 :=
        if state.selected_postcode_title.isSome then
          { state with selected_postcode_title := none }
        else state
      if s1.selected_postcode.isSome then
        { s1 with selected_postcode := none }
      else s1
    else state
  { state1 with previous_selected_department := some selected_department }

/-! ## Dataset records and the Normalization Engine (home.py lines 144-168) -/

/-- One row of the properties dataframe.  `extra` stands for all columns
other than the three the pipeline touches or reads. -/
structure Record where
  valeur_fonciere : ℚ
  surface_reelle_bati : ℚ
  type_local : String
  extra : List (String × String)
deriving DecidableEq

/-- Rounding half to even, the behaviour of pandas `.round()` on a
numeric column. -/
def roundHalfEven (q : ℚ) : ℤ :=
  if q - ⌊q⌋ < 1/2 then ⌊q⌋
  else if 1/2 < q - ⌊q⌋ then ⌊q⌋ + 1
  else if ⌊q⌋ % 2 = 0 then ⌊q⌋ else ⌊q⌋ + 1

/-- The error pandas raises when `.astype(int)` meets a non-finite value
(`ValueError: Cannot convert non-finite values (NA or inf) to integer`). -/
inductive PandasError where
  | intCastingNaNError
deriving DecidableEq

/-- One row of `(valeur_fonciere / surface_reelle_bati).round().astype(int)`:
division by a zero area gives a non-finite value (`none`); otherwise the
price field is replaced by the rounded ratio and every other field is
kept. -/
def normalizeRecord (r : Record) : Option Record :=
  if r.surface_reelle_bati = 0 then none
  else some { r with
    valeur_fonciere := ((roundHalfEven (r.valeur_fonciere / r.surface_reelle_bati) : ℤ) : ℚ) }

/-- Columnwise application of `normalizeRecord`; `none` as soon as any
row produced a non-finite value, since `.astype(int)` raises on the
whole column. -/
def normalizeList : List Record → Option (List Record)
  | [] => some []
  | r :: rs =>
    match normalizeRecord r, normalizeList rs with
    | some r2, some rs2 => some (r2 :: rs2)
    | _, _ => none

/-- The Normalization Engine (home.py lines 158-168): when the
`normalize_by_area` checkbox is set, replace the `valeur_fonciere`
column by `(valeur_fonciere / surface_reelle_bati).round().astype(int)`;
otherwise the dataframe passes through untouched. -/
def normalizationEngine (ds : List Record) (normalize_by_area : Bool) :
    Except PandasError (List Record) :=
  if normalize_by_area then
    match normalizeList ds with
    | some ds2 => Except.ok ds2
    | none => Except.error PandasError.intCastingNaNError
  else Except.ok ds

/-! ## Type Filter (home.py line 149) -/

/-- pandas `Series.unique()`: distinct values in order of first
appearance. -/
def pdUnique : List String → List String
  | [] => []
  | a :: rest => a :: pdUnique (rest.filter (fun b => b != a))
termination_by l => l.length
decreasing_by
  simp only [List.length_cons]
  exact Nat.lt_succ_of_le (List.length_filter_le _ _)

/-- Lexicographic (code-point) string comparison, the order Python's
`sorted` uses on strings; written structurally on the character lists. -/
def charListLe : List Char → List Char → Bool
  | [], _ => true
  | _ :: _, [] => false
  | a :: as, b :: bs =>
    if a < b then true
    else if b < a then false
    else charListLe as bs

/-- Python's string order as a proposition. -/
def pyLe (a b : String) : Prop :=
  charListLe a.data b.data = true

instance : DecidableRel pyLe := fun a b => instDecidableEqBool _ _

/-- Python `sorted(...)` on a list of strings: a stable ascending sort. -/
def pySorted (l : List String) : List String :=
  List.insertionSort pyLe l

/-- `self.local_types = sorted(self.properties_input["type_local"].unique())`
(home.py line 149). -/
def localTypes (ds : List Record) : List String :=
  pySorted (pdUnique (ds.map Record.type_local))

/-! ## Whole-evaluation pipeline (home.py lines 134-168 and 64-72) -/

/-- `self.properties_input = self.properties_input.copy()`
(home.py line 146): a fresh dataframe with the same contents. -/
def dfCopy (ds : List Record) : List Record := ds

/-- What the user sees at the end of `__init__` (home.py lines 64-72). -/
inductive Outcome where
  | noOutput
  | plotsCreated
  | sidebarError (department year : String)
deriving DecidableEq

/-- Which pipeline stages ran during one evaluation, and its outcome. -/
structure RunTrace where
  typeFilterCalled : Bool
  normalizationCalled : Bool
  outcome : Outcome
deriving DecidableEq

/-- One evaluation after the fetch: home.py lines 144-168 guard the type
enumeration and the normalization under `if not self.properties_input is
None`; `__init__` (lines 64-72) then calls `create_plots` when the
fetched dataframe has a non-empty `local_types`, shows the sidebar error
naming department and year when `local_types` is empty, and renders
nothing at all when the fetch returned `None`. -/
def appRun (department year : String) (fetched : Option (List Record))
    (normalize_by_area : Bool) : Except PandasError RunTrace :=
  match fetched with
  | none =>
    Except.ok { typeFilterCalled := false, normalizationCalled := false,
                outcome := Outcome.noOutput }
  | some fetched_ds =>
    let ds := dfCopy fetched_ds
    let local_types := localTypes ds
    match normalizationEngine ds normalize_by_area with
    | Except.error e => Except.error e
    | Except.ok _ =>
      if local_types.isEmpty then
        Except.ok { typeFilterCalled := true, normalizationCalled := normalize_by_area,
                    outcome := Outcome.sidebarError department year }
      else
        Except.ok { typeFilterCalled := true, normalizationCalled := normalize_by_area,
                    outcome := Outcome.plotsCreated }

/-! ## Helper lemmas -/

theorem charListLe_iff (as : List Char) :
    ∀ bs, charListLe as bs = true ↔ ¬ List.Lex (· < ·) bs as := by
  induction as with
  | nil =>
    intro bs
    constructor
    · intro _ h
      cases h
    · intro _
      rfl
  | cons a as ih =>
    intro bs
    cases bs with
    | nil =>
      constructor
      · intro h
        simp [charListLe] at h
      · intro h
        exact absurd List.Lex.nil h
    | cons b bs =>
      constructor
      · intro h hlt
        rw [charListLe] at h
        cases hlt with
        | cons hlt' =>
          rw [if_neg (lt_irrefl a), if_neg (lt_irrefl a)] at h
          exact (ih bs).mp h hlt'
        | rel hba =>
          by_cases hab : a < b
          · exact absurd hba (asymm hab)
          · rw [if_neg hab, if_pos hba] at h
            exact Bool.noConfusion h
      · intro h
        rw [charListLe]
        by_cases hab : a < b
        · rw [if_pos hab]
        · rw [if_neg hab]
          by_cases hba : b < a
          · exact absurd (List.Lex.rel hba) h
          · rw [if_neg hba]
            have hab' : a = b := le_antisymm (le_of_not_lt hba) (le_of_not_lt hab)
            subst hab'
            exact (ih bs).mpr (fun hlt' => h (List.Lex.cons hlt'))

theorem pyLe_iff_le (a b : String) : pyLe a b ↔ a ≤ b := by
  rw [String.le_iff_toList_le, ← not_lt]
  exact charListLe_iff a.data b.data

instance : IsTotal String pyLe :=
  ⟨fun a b => by rw [pyLe_iff_le, pyLe_iff_le]; exact le_total a b⟩

instance : IsTrans String pyLe :=
  ⟨fun a b c hab hbc => by
    rw [pyLe_iff_le] at hab hbc ⊢
    exact le_trans hab hbc⟩

theorem pdUnique_subset : ∀ (l : List String), ∀ x ∈ pdUnique l, x ∈ l := by
  intro l
  induction l using pdUnique.induct with
  | case1 =>
    intro x hx
    simp [pdUnique] at hx
  | case2 a rest ih =>
    intro x hx
    rw [pdUnique] at hx
    rcases List.mem_cons.mp hx with rfl | hx
    · exact List.mem_cons_self _ _
    · exact List.mem_cons_of_mem _ (List.mem_of_mem_filter (ih x hx))

theorem pdUnique_nodup : ∀ (l : List String), (pdUnique l).Nodup := by
  intro l
  induction l using pdUnique.induct with
  | case1 =>
    simp [pdUnique]
  | case2 a rest ih =>
    rw [pdUnique]
    refine List.nodup_cons.mpr ⟨fun hmem => ?_, ih⟩
    have h2 := List.of_mem_filter (pdUnique_subset _ _ hmem)
    simp at h2

theorem pdUnique_ne_nil {a : String} {rest : List String} : pdUnique (a :: rest) ≠ [] := by
  rw [pdUnique]
  exact List.cons_ne_nil _ _

theorem localTypes_eq_nil {ds : List Record} (h : localTypes ds = []) : ds = [] := by
  cases ds with
  | nil => rfl
  | cons r rs =>
    exfalso
    unfold localTypes pySorted at h
    have hperm := List.perm_insertionSort pyLe (pdUnique ((r :: rs).map Record.type_local))
    rw [h] at hperm
    exact pdUnique_ne_nil hperm.nil_eq.symm

theorem normalizeList_eq_map {ds : List Record}
    (h : ∀ r ∈ ds, r.surface_reelle_bati ≠ 0) :
    normalizeList ds = some (ds.map (fun r =>
      { r with valeur_fonciere :=
          ((roundHalfEven (r.valeur_fonciere / r.surface_reelle_bati) : ℤ) : ℚ) })) := by
  induction ds with
  | nil => rfl
  | cons r rs ih =>
    have hr : normalizeRecord r = some { r with
        valeur_fonciere :=
          ((roundHalfEven (r.valeur_fonciere / r.surface_reelle_bati) : ℤ) : ℚ) } := by
      rw [normalizeRecord, if_neg (h r (List.mem_cons_self r rs))]
    rw [List.map_cons, normalizeList, hr, ih (fun x hx => h x (List.mem_cons_of_mem _ hx))]

theorem normalizeList_type_local : ∀ {ds out : List Record},
    normalizeList ds = some out → out.map Record.type_local = ds.map Record.type_local := by
  intro ds
  induction ds with
  | nil =>
    intro out h
    rw [normalizeList] at h
    cases h
    rfl
  | cons r rs ih =>
    intro out h
    rw [normalizeList] at h
    cases hr : normalizeRecord r with
    | none =>
      rw [hr] at h
      cases h
    | some r2 =>
      rw [hr] at h
      cases hrs : normalizeList rs with
      | none =>
        rw [hrs] at h
        cases h
      | some rs2 =>
        rw [hrs] at h
        cases h
        have ht : r2.type_local = r.type_local := by
          rw [normalizeRecord] at hr
          by_cases hz : r.surface_reelle_bati = 0
          · rw [if_pos hz] at hr
            cases hr
          · rw [if_neg hz] at hr
            cases hr
            rfl
        rw [List.map_cons, List.map_cons, ht, ih hrs]

theorem localTypes_normalize {ds out : List Record} (h : normalizeList ds = some out) :
    localTypes out = localTypes ds := by
  unfold localTypes
  rw [normalizeList_type_local h]

/-! ## Claims -/

/-- Claim C1: for every valid department code in the fixed set and every
year label in the catalogue, the dataset resolver issues exactly one
fetch call, never both: `fetch_data_gouv (department, year)` when the
parsed year is a past closed year, and `fetch_data_BigQuery
(credentials, department)` when it is the live sentinel year 2024. -/
theorem dataset_resolver_exactly_one_fetch
    (credentials department yearLabel : String)
    (hd : department ∈ departments) (hy : yearLabel ∈ yearLabels) :
    (fetchCalls credentials department yearLabel).length = 1 ∧
    (parseYearLabel yearLabel ≠ "2024" →
      fetchCalls credentials department yearLabel =
        [FetchCall.gouv department (parseYearLabel yearLabel)]) ∧
    (parseYearLabel yearLabel = "2024" →
      fetchCalls credentials department yearLabel =
        [FetchCall.bigQuery credentials department]) := by
  simp only [yearLabels, available_years_datagouv, List.map_cons, List.map_nil,
    List.mem_cons, List.not_mem_nil, or_false] at hy
  rcases hy with rfl | rfl | rfl | rfl | rfl | rfl | rfl <;>
    refine ⟨rfl, fun h => ?_, fun h => ?_⟩ <;>
    first
      | rfl
      | exact absurd h (by decide)
      | exact absurd rfl h

/-- Witness for C1 at department `"06"` and year label `"Vendus en 2023"`. -/
theorem dataset_resolver_exactly_one_fetch_witness :
    ("06" ∈ departments ∧ "Vendus en 2023" ∈ yearLabels) ∧
    ((fetchCalls "bigquery_cred" "06" "Vendus en 2023").length = 1 ∧
      (parseYearLabel "Vendus en 2023" ≠ "2024" →
        fetchCalls "bigquery_cred" "06" "Vendus en 2023" =
          [FetchCall.gouv "06" (parseYearLabel "Vendus en 2023")]) ∧
      (parseYearLabel "Vendus en 2023" = "2024" →
        fetchCalls "bigquery_cred" "06" "Vendus en 2023" =
          [FetchCall.bigQuery "bigquery_cred" "06"])) :=
  ⟨⟨by decide, by decide⟩,
    dataset_resolver_exactly_one_fetch "bigquery_cred" "06" "Vendus en 2023"
      (by decide) (by decide)⟩

/-- Claim C2: if the newly selected department differs from the stored
one, both the stored postcode and the stored selected-postcode-title are
deleted; if the department is unchanged or no prior department was
stored, neither is touched; in all cases the stored department is then
overwritten with the new value.  Deleting an absent key never occurs and
never errors: the branches are total and leave absent keys absent. -/
theorem department_change_invalidation (state : SessionState) (d : String) :
    (∀ p, state.previous_selected_department = some p → p ≠ d →
      (departmentChangeReset state d).selected_postcode = none ∧
      (departmentChangeReset state d).selected_postcode_title = none) ∧
    (state.previous_selected_department = some d ∨
        state.previous_selected_department = none →
      (departmentChangeReset state d).selected_postcode = state.selected_postcode ∧
      (departmentChangeReset state d).selected_postcode_title = state.selected_postcode_title) ∧
    (departmentChangeReset state d).previous_selected_department = some d := by
  obtain ⟨prev, pc, pct⟩ := state
  refine ⟨?_, ?_, ?_⟩
  · intro p hp hne
    cases prev with
    | none => simp at hp
    | some q =>
      have hq : q = p := by injection hp
      subst hq
      have hb : (q != d) = true := bne_iff_ne.mpr hne
      cases pc <;> cases pct <;> simp [departmentChangeReset, hb]
  · intro hcase
    rcases hcase with hp | hp
    · cases prev with
      | none => simp at hp
      | some q =>
        have hq : q = d := by injection hp
        subst hq
        simp [departmentChangeReset]
    · cases prev with
      | some q => simp at hp
      | none => simp [departmentChangeReset]
  · rfl

/-- Witness for C2: department changes from `"06"` to `"75"` with both
dependent keys present; both get cleared. -/
theorem department_change_invalidation_witness :
    (departmentChangeReset ⟨some "06", some "06000", some "title"⟩ "75").selected_postcode
        = none ∧
    (departmentChangeReset ⟨some "06", some "06000", some "title"⟩ "75").selected_postcode_title
        = none :=
  (department_change_invalidation ⟨some "06", some "06000", some "title"⟩ "75").1
    "06" rfl (by decide)

/-- Claim C3 (code behaviour at the failing inputs): a record with
negative `surface_reelle_bati` is neither excluded nor rejected — the
code keeps it and derives a (negative) price for it — and a record with
zero area makes the whole column conversion raise pandas' raw cast
error, not any `DataIntegrityError`. -/
theorem normalization_nonpositive_area_code_behavior :
    normalizationEngine
        [{ valeur_fonciere := 150000, surface_reelle_bati := -50,
           type_local := "Maison", extra := [] }] true =
      Except.ok
        [{ valeur_fonciere := -3000, surface_reelle_bati := -50,
           type_local := "Maison", extra := [] }] ∧
    normalizationEngine
        [{ valeur_fonciere := 100, surface_reelle_bati := 0,
           type_local := "Maison", extra := [] }] true =
      Except.error PandasError.intCastingNaNError := by
  constructor
  · norm_num [normalizationEngine, normalizeList, normalizeRecord, roundHalfEven]
  · norm_num [normalizationEngine, normalizeList, normalizeRecord]

/-- Claim C4: with `normalize_by_area` set and every area positive, the
engine replaces each record's price by `round(valeur_fonciere /
surface_reelle_bati)` cast to integer and leaves every other field
unchanged; in particular `valeur_fonciere=150000, surface_reelle_bati=50`
yields exactly 3000. -/
theorem normalization_replaces_price_with_rounded_ratio
    (ds : List Record) (hpos : ∀ r ∈ ds, 0 < r.surface_reelle_bati) :
    normalizationEngine ds true =
      Except.ok (ds.map (fun r =>
        { r with valeur_fonciere :=
            ((roundHalfEven (r.valeur_fonciere / r.surface_reelle_bati) : ℤ) : ℚ) })) ∧
    normalizationEngine
        [{ valeur_fonciere := 150000, surface_reelle_bati := 50,
           type_local := "Maison", extra := [] }] true =
      Except.ok
        [{ valeur_fonciere := 3000, surface_reelle_bati := 50,
           type_local := "Maison", extra := [] }] := by
  constructor
  · rw [normalizationEngine, if_pos rfl,
      normalizeList_eq_map (fun r hr => (hpos r hr).ne')]
  · norm_num [normalizationEngine, normalizeList, normalizeRecord, roundHalfEven]

/-- Witness for C4 on the one-record dataset from the claim. -/
theorem normalization_replaces_price_witness :
    (∀ r ∈ ([{ valeur_fonciere := 150000, surface_reelle_bati := 50,
               type_local := "Maison", extra := [] }] : List Record),
        0 < r.surface_reelle_bati) ∧
    normalizationEngine
        [{ valeur_fonciere := 150000, surface_reelle_bati := 50,
           type_local := "Maison", extra := [] }] true =
      Except.ok
        [{ valeur_fonciere := 3000, surface_reelle_bati := 50,
           type_local := "Maison", extra := [] }] :=
  ⟨by decide,
    (normalization_replaces_price_with_rounded_ratio
      [{ valeur_fonciere := 150000, surface_reelle_bati := 50,
         type_local := "Maison", extra := [] }] (by decide)).2⟩

/-- Counterexample to C5 as stated: when the fetch returns `None`
(Unavailable), the evaluation produces no user-facing message at all —
the configuration-specific sidebar error is not shown. -/
theorem unavailable_message_counterexample :
    appRun "06" "2023" none true =
      Except.ok { typeFilterCalled := false, normalizationCalled := false,
                  outcome := Outcome.noOutput } ∧
    Outcome.noOutput ≠ Outcome.sidebarError "06" "2023" :=
  ⟨rfl, by decide⟩

/-- Claim C5 as amended: when the resolver returns Unavailable the
pipeline calls neither the Normalization Engine nor the Type Filter, and
no user-facing message is displayed (the configuration-specific message
naming department and year appears only in the fetched-but-empty case). -/
theorem unavailable_skips_normalization_and_type_filter
    (department year : String) (normalize_by_area : Bool) :
    appRun department year none normalize_by_area =
      Except.ok { typeFilterCalled := false, normalizationCalled := false,
                  outcome := Outcome.noOutput } := rfl

/-- Claim C6: the Normalization Engine is a pure, deterministic function
of the pair (dataset, flag) — two invocations on two fresh copies of
equal raw datasets agree — and it operates on a derived copy whose
contents equal the fetched original, which is never mutated. -/
theorem normalization_engine_pure
    (ds1 ds2 : List Record) (normalize_by_area : Bool) (h : ds1 = ds2) :
    normalizationEngine (dfCopy ds1) normalize_by_area =
      normalizationEngine (dfCopy ds2) normalize_by_area ∧
    dfCopy ds1 = ds1 :=
  ⟨by rw [h], rfl⟩

/-- Witness for C6 on two copies of a concrete one-record dataset. -/
theorem normalization_engine_pure_witness :
    (([{ valeur_fonciere := 150000, surface_reelle_bati := 50,
         type_local := "Maison", extra := [] }] : List Record) =
      [{ valeur_fonciere := 150000, surface_reelle_bati := 50,
         type_local := "Maison", extra := [] }]) ∧
    (normalizationEngine
        (dfCopy [{ valeur_fonciere := 150000, surface_reelle_bati := 50,
                   type_local := "Maison", extra := [] }]) true =
      normalizationEngine
        (dfCopy [{ valeur_fonciere := 150000, surface_reelle_bati := 50,
                   type_local := "Maison", extra := [] }]) true ∧
      dfCopy [{ valeur_fonciere := 150000, surface_reelle_bati := 50,
                type_local := "Maison", extra := [] }] =
        [{ valeur_fonciere := 150000, surface_reelle_bati := 50,
           type_local := "Maison", extra := [] }]) :=
  ⟨rfl, normalization_engine_pure _ _ true rfl⟩

/-- Claim C7: for every dataset, the Type Filter's enumerated list of
distinct `type_local` values is sorted ascending (lexicographically) and
contains no duplicates. -/
theorem type_filter_sorted_nodup (ds : List Record) :
    (localTypes ds).Sorted (· ≤ ·) ∧ (localTypes ds).Nodup := by
  constructor
  · exact (List.sorted_insertionSort pyLe
      (pdUnique (ds.map Record.type_local))).imp
      (fun hab => (pyLe_iff_le _ _).mp hab)
  · exact (List.perm_insertionSort pyLe _).nodup_iff.mpr (pdUnique_nodup _)

/-- Counterexample to C8's parenthetical "same user-facing treatment as
Unavailable": a fetched-but-empty dataset shows the sidebar error while
an unavailable fetch shows nothing; the two outcomes differ. -/
theorem empty_type_set_treatment_differs :
    appRun "06" "2023" (some []) true =
      Except.ok { typeFilterCalled := true, normalizationCalled := true,
                  outcome := Outcome.sidebarError "06" "2023" } ∧
    appRun "06" "2023" none true =
      Except.ok { typeFilterCalled := false, normalizationCalled := false,
                  outcome := Outcome.noOutput } ∧
    Outcome.sidebarError "06" "2023" ≠ Outcome.noOutput := by
  refine ⟨?_, rfl, by decide⟩
  simp [appRun, dfCopy, localTypes, pySorted, pdUnique, List.insertionSort,
    normalizationEngine, normalizeList]

/-- Claim C8 as amended: when a dataset was fetched but its computed set
of property types is empty, the pipeline shows the "no data for this
configuration" sidebar error naming department and year and does not
plot — unlike the Unavailable case, which produces no message at all. -/
theorem empty_type_set_signals_error
    (department year : String) (ds : List Record) (normalize_by_area : Bool)
    (h : localTypes ds = []) :
    appRun department year (some ds) normalize_by_area =
      Except.ok { typeFilterCalled := true, normalizationCalled := normalize_by_area,
                  outcome := Outcome.sidebarError department year } ∧
    Outcome.sidebarError department year ≠ Outcome.plotsCreated := by
  have hds : ds = [] := localTypes_eq_nil h
  subst hds
  refine ⟨?_, by simp⟩
  cases normalize_by_area <;>
    simp [appRun, dfCopy, localTypes, pySorted, pdUnique, List.insertionSort,
      normalizationEngine, normalizeList]

/-- Witness for C8 on the empty fetched dataset. -/
theorem empty_type_set_signals_error_witness :
    localTypes [] = [] ∧
    (appRun "06" "2023" (some []) true =
      Except.ok { typeFilterCalled := true, normalizationCalled := true,
                  outcome := Outcome.sidebarError "06" "2023" } ∧
    Outcome.sidebarError "06" "2023" ≠ Outcome.plotsCreated) :=
  ⟨by simp [localTypes, pySorted, pdUnique, List.insertionSort],
    empty_type_set_signals_error "06" "2023" [] true
      (by simp [localTypes, pySorted, pdUnique, List.insertionSort])⟩

/-- Claim C9: with the flag off, the Normalization Engine returns the
dataset unchanged — every record and every field identical. -/
theorem normalization_flag_false_identity (ds : List Record) :
    normalizationEngine ds false = Except.ok ds := rfl

/-- Claim C10: enumerating the sorted distinct `type_local` values
commutes with normalization — the option list computed from the raw
dataset (as the code does) equals the one computed from the normalized
dataset (as the spec's dataflow implies), because normalization touches
only the price field. -/
theorem type_options_commute_with_normalization
    (ds out : List Record) (h : normalizationEngine ds true = Except.ok out) :
    localTypes out = localTypes ds := by
  rw [normalizationEngine, if_pos rfl] at h
  cases hn : normalizeList ds with
  | none => rw [hn] at h; cases h
  | some ds2 =>
    rw [hn] at h
    cases h
    exact localTypes_normalize hn

/-- Witness for C10 on a concrete one-record dataset. -/
theorem type_options_commute_witness :
    normalizationEngine
        [{ valeur_fonciere := 150000, surface_reelle_bati := 50,
           type_local := "Maison", extra := [] }] true =
      Except.ok
        [{ valeur_fonciere := 3000, surface_reelle_bati := 50,
           type_local := "Maison", extra := [] }] ∧
    localTypes
        [{ valeur_fonciere := 3000, surface_reelle_bati := 50,
           type_local := "Maison", extra := [] }] =
      localTypes
        [{ valeur_fonciere := 150000, surface_reelle_bati := 50,
           type_local := "Maison", extra := [] }] := by
  have h : normalizationEngine
      [{ valeur_fonciere := 150000, surface_reelle_bati := 50,
         type_local := "Maison", extra := [] }] true =
    Except.ok
      [{ valeur_fonciere := 3000, surface_reelle_bati := 50,
         type_local := "Maison", extra := [] }] := by
    norm_num [normalizationEngine, normalizeList, normalizeRecord, roundHalfEven]
  exact ⟨h, type_options_commute_with_normalization _ _ h⟩
